import Mathlib

/-!
Verification of the virtualized-list windowing core and the deferred-update
scheduling contract of the TypeScript application scaffold.

The application wires the windowing calculator through a third-party
virtualizer in `src/features/virtualized-list/VirtualizedList.tsx`
(count 10000, estimated item size 80, overscan 5, container height 500)
and the deferred scheduler through the UI framework's deferred-value
primitive in `src/features/search/SearchExample.tsx`.  The calculator and
scheduler bodies are not part of the repository sources, so they are
modelled here from the specification; the render layer's item lookup and
bounds check are embedded directly from `VirtualizedList.tsx`.

Scroll offsets, container heights and pixel sizes are numbers in the
source; they are embedded as rationals, with `Rat.floor` and `Rat.ceil`
(proved below to agree with the mathematical floor and ceiling) supplying
the rounding used by the windowing algorithm.
-/

/-- `Rat.floor` computes the mathematical floor. -/
theorem ratFloor_eq_floor (q : ℚ) : q.floor = ⌊q⌋ :=
  (Rat.floor_def' q).trans Rat.floor_def.symm

/-- `Rat.ceil` computes the mathematical ceiling. -/
theorem ratCeil_eq_ceil (q : ℚ) : q.ceil = ⌈q⌉ := by
  unfold Rat.ceil
  split
  · next h =>
    have hq : (q.num : ℚ) = q := (Rat.den_eq_one_iff q).mp h
    conv_rhs => rw [← hq]
    rw [Int.ceil_intCast]
  · next h =>
    have hfloor : q.num / (q.den : ℤ) = ⌊q⌋ := Rat.floor_def.symm
    rw [hfloor]
    have h1 : ⌈q⌉ ≤ ⌊q⌋ + 1 := by
      apply Int.ceil_le.mpr
      push_cast
      exact (Int.lt_floor_add_one q).le
    have h2 : ⌊q⌋ < ⌈q⌉ := by
      by_contra hnot
      have heq : ⌊q⌋ = ⌈q⌉ := le_antisymm (Int.floor_le_ceil q) (by omega)
      have hqe : q = (⌊q⌋ : ℚ) :=
        le_antisymm (by rw [heq]; exact Int.le_ceil q) (Int.floor_le q)
      have : q.den = 1 := by rw [hqe]; exact Rat.den_intCast _
      exact h this
    omega

/-- Viewport State from the data model: scroll offset and container height,
mutated by scroll and resize events. -/
structure ViewportState where
  scrollOffset : ℚ
  containerHeight : ℚ
deriving DecidableEq

/-- One entry of a visible range: item index, pixel top and pixel height. -/
structure ItemOffset where
  index : ℤ
  pixelTop : ℚ
  pixelHeight : ℚ
deriving DecidableEq

/-- Visible Range from the data model: start and end indices plus the ordered
sequence of item offsets. -/
structure VisibleRange where
  startIndex : ℤ
  endIndex : ℤ
  itemOffsets : List ItemOffset
deriving DecidableEq

/-- Modelled from the spec: the windowing arithmetic of the calculator on
contract-conforming inputs.
`startIndex = max(0, floor(scrollOffset / estimatedItemSize) - overscan)`,
`visibleCount = ceil(containerHeight / estimatedItemSize)`,
`endIndex = min(itemCount - 1, startIndex + visibleCount + 2*overscan)`,
and the listed items from `startIndex` to `endIndex` get pixel top
`index * estimatedItemSize` and pixel height `estimatedItemSize`. -/
def visibleRangeCore (itemCount : ℤ) (estimatedItemSize : ℚ)
    (viewport : ViewportState) (overscan : ℤ) : VisibleRange :=
  let startIndex : ℤ := max 0 ((viewport.scrollOffset / estimatedItemSize).floor - overscan)
  let visibleCount : ℤ := (viewport.containerHeight / estimatedItemSize).ceil
  let endIndex : ℤ := min (itemCount - 1) (startIndex + visibleCount + 2 * overscan)
  { startIndex := startIndex
    endIndex := endIndex
    itemOffsets :=
      (List.range (endIndex + 1 - startIndex).toNat).map fun (k : ℕ) =>
        { index := startIndex + (k : ℤ)
          pixelTop := ((startIndex + (k : ℤ) : ℤ) : ℚ) * estimatedItemSize
          pixelHeight := estimatedItemSize } }

/-- Modelled from the spec: the Windowing Calculator `computeVisibleRange`,
whose body lives in the external virtualization library and is therefore not
under the repository sources.  Inputs outside the contract
(`itemCount >= 0`, `estimatedItemSize > 0`, `overscan >= 0`) are programming
errors rejected at the boundary, as the error-handling design requires;
conforming inputs get the windowing arithmetic of `visibleRangeCore`. -/
def computeVisibleRange (itemCount : ℤ) (estimatedItemSize : ℚ)
    (viewport : ViewportState) (overscan : ℤ) : Except String VisibleRange :=
  if itemCount < 0 then
    Except.error "itemCount must be nonnegative"
  else if estimatedItemSize ≤ 0 then
    Except.error "estimatedItemSize must be positive"
  else if overscan < 0 then
    Except.error "overscan must be nonnegative"
  else
    Except.ok (visibleRangeCore itemCount estimatedItemSize viewport overscan)

/-- Projection of a calculator result onto its start and end indices, used to
state concrete scenarios. -/
def okRange : Except String VisibleRange → Option (ℤ × ℤ)
  | Except.ok r => some (r.startIndex, r.endIndex)
  | Except.error _ => none

/-- Boolean view of the property `startIndex ≤ endIndex` of a calculator
result (vacuously true on an error result). -/
def startLeEnd : Except String VisibleRange → Bool
  | Except.ok r => decide (r.startIndex ≤ r.endIndex)
  | Except.error _ => true

/-- Modelled from the spec: the total scrollable height reported for the
spacer element, accumulated from the fixed per-item size estimate over every
item of the list (the reporting code lives in the external virtualization
library).  The count of actually rendered items never enters the
computation. -/
def estimatedSizeSum : ℕ → ℚ → ℚ
  | 0, _ => 0
  | n + 1, size => estimatedSizeSum n size + size

/-- Total height of the spacer element for a given item count and estimated
item size. -/
def totalHeight (itemCount : ℤ) (estimatedItemSize : ℚ) : ℚ :=
  estimatedSizeSum itemCount.toNat estimatedItemSize

/-- Deferred Value Pair from the data model: `urgent` updates immediately on
every input event; `deferred` lags behind. -/
structure DeferredPair (T : Type) where
  urgent : T
  deferred : T
deriving DecidableEq

/-- Modelled from the spec: the events driving the Deferred Update Scheduler.
`setUrgent v` is an input event, updating the urgent value immediately and
replacing any scheduled deferred update; `flush` is the scheduled deferred
update firing at the environment's next idle opportunity, copying the newest
urgent value into the deferred slot (newest write wins). -/
inductive SchedEvent (T : Type) where
  | setUrgent (v : T)
  | flush
deriving DecidableEq

/-- Modelled from the spec: one step of the Deferred Update Scheduler (the
scheduler itself is the UI framework's deferred-value primitive, not part of
the repository sources). -/
def stepDeferred {T : Type} (s : DeferredPair T) : SchedEvent T → DeferredPair T
  | SchedEvent.setUrgent v => { urgent := v, deferred := s.deferred }
  | SchedEvent.flush => { urgent := s.urgent, deferred := s.urgent }

/-- Run the scheduler over a sequence of events. -/
def runDeferred {T : Type} (s : DeferredPair T) (evs : List (SchedEvent T)) : DeferredPair T :=
  evs.foldl stepDeferred s

/-- Initial deferred pair: on first render the deferred value equals the
urgent value. -/
def initPair {T : Type} (v : T) : DeferredPair T :=
  { urgent := v, deferred := v }

/-- The values written to the urgent slot by a sequence of events. -/
def urgentValues {T : Type} (evs : List (SchedEvent T)) : List T :=
  evs.filterMap fun e =>
    match e with
    | SchedEvent.setUrgent v => some v
    | SchedEvent.flush => none

/-- An item of the synthetic dataset generated in `VirtualizedList.tsx`:
`id`, title `Item #(i+1)`, a description, a category drawn cyclically from
four names, and a date built from day-of-year `i % 365 + 1` (kept as the
numeric day code; locale formatting is presentation only). -/
structure Item where
  id : ℕ
  title : String
  description : String
  category : String
  dateCode : ℕ
deriving DecidableEq

/-- The four category names of the generated dataset. -/
def categoryNames : List String :=
  ["Technology", "Design", "Marketing", "Sales"]

/-- The item generator of `VirtualizedList.tsx`. -/
def makeItem (i : ℕ) : Item :=
  { id := i
    title := "Item #" ++ toString (i + 1)
    description := "This is the description for item " ++ toString (i + 1)
    category := (categoryNames.get? (i % 4)).getD ""
    dateCode := i % 365 + 1 }

/-- The generated dataset: `Array.from` of length `n` over `makeItem`. -/
def makeItems (n : ℕ) : List Item :=
  (List.range n).map makeItem

/-- A virtual item produced by the virtualizer: index into the items array,
stable key, pixel start and pixel size. -/
structure VirtualItem where
  index : ℕ
  key : ℕ
  start : ℚ
  size : ℚ
deriving DecidableEq

/-- A rendered row of the list: key, `translateY` pixel offset, pixel height
and the item it displays. -/
structure RenderedRow where
  key : ℕ
  translateY : ℚ
  height : ℚ
  item : Item
deriving DecidableEq

/-- The row rendering of `VirtualizedList.tsx`: the virtual item's index is
looked up in the items array (`items[virtualItem.index]`); a missing entry
renders nothing (`if (!item) return null`), a present entry renders a row
absolutely positioned at `translateY(virtualItem.start)` with height
`virtualItem.size`. -/
def renderRow (items : List Item) (vi : VirtualItem) : Option RenderedRow :=
  match items.get? vi.index with
  | none => none
  | some item =>
    some { key := vi.key, translateY := vi.start, height := vi.size, item := item }

/-- The render layer maps `renderRow` over the virtual items. -/
def renderRows (items : List Item) (vis : List VirtualItem) : List (Option RenderedRow) :=
  vis.map (renderRow items)

/-- The state surrounding a calculator call: the item array and the current
viewport.  Used to express that calling the calculator leaves every piece of
surrounding state untouched. -/
structure RenderWorld where
  items : List Item
  viewport : ViewportState
deriving DecidableEq

/-- A calculator call threaded through the surrounding state: it produces
its result and passes the state along. -/
def callComputeVisibleRange (w : RenderWorld) (itemCount : ℤ) (estimatedItemSize : ℚ)
    (viewport : ViewportState) (overscan : ℤ) : Except String VisibleRange × RenderWorld :=
  (computeVisibleRange itemCount estimatedItemSize viewport overscan, w)

theorem estimatedSizeSum_eq (n : ℕ) (size : ℚ) :
    estimatedSizeSum n size = n * size := by
  induction n with
  | zero => simp [estimatedSizeSum]
  | succ m ih =>
    simp only [estimatedSizeSum, ih]
    push_cast
    ring

theorem computeVisibleRange_eq_ok (itemCount : ℤ) (estimatedItemSize : ℚ)
    (viewport : ViewportState) (overscan : ℤ)
    (hc : 0 ≤ itemCount) (hs : 0 < estimatedItemSize) (ho : 0 ≤ overscan) :
    computeVisibleRange itemCount estimatedItemSize viewport overscan =
      Except.ok (visibleRangeCore itemCount estimatedItemSize viewport overscan) := by
  rw [computeVisibleRange, if_neg (by omega), if_neg (not_le.mpr hs), if_neg (by omega)]

theorem visibleRangeCore_startIndex (itemCount : ℤ) (estimatedItemSize : ℚ)
    (viewport : ViewportState) (overscan : ℤ) :
    (visibleRangeCore itemCount estimatedItemSize viewport overscan).startIndex =
      max 0 (⌊viewport.scrollOffset / estimatedItemSize⌋ - overscan) := by
  simp [visibleRangeCore, ratFloor_eq_floor]

theorem visibleRangeCore_endIndex (itemCount : ℤ) (estimatedItemSize : ℚ)
    (viewport : ViewportState) (overscan : ℤ) :
    (visibleRangeCore itemCount estimatedItemSize viewport overscan).endIndex =
      min (itemCount - 1)
        ((visibleRangeCore itemCount estimatedItemSize viewport overscan).startIndex +
          ⌈viewport.containerHeight / estimatedItemSize⌉ + 2 * overscan) := by
  simp [visibleRangeCore, ratFloor_eq_floor, ratCeil_eq_ceil]

theorem visibleRangeCore_pixelTop (itemCount : ℤ) (estimatedItemSize : ℚ)
    (viewport : ViewportState) (overscan : ℤ) :
    ∀ o ∈ (visibleRangeCore itemCount estimatedItemSize viewport overscan).itemOffsets,
      o.pixelTop = (o.index : ℚ) * estimatedItemSize := by
  intro o hmem
  simp only [visibleRangeCore, List.mem_map, List.mem_range] at hmem
  obtain ⟨k, _, rfl⟩ := hmem
  push_cast
  ring

theorem visibleRangeCore_itemOffsets_length (itemCount : ℤ) (estimatedItemSize : ℚ)
    (viewport : ViewportState) (overscan : ℤ) :
    (visibleRangeCore itemCount estimatedItemSize viewport overscan).itemOffsets.length =
      ((visibleRangeCore itemCount estimatedItemSize viewport overscan).endIndex + 1 -
        (visibleRangeCore itemCount estimatedItemSize viewport overscan).startIndex).toNat := by
  simp only [visibleRangeCore, List.length_map, List.length_range]

theorem visibleRangeCore_zero_items (estimatedItemSize : ℚ) (viewport : ViewportState)
    (overscan : ℤ) :
    (visibleRangeCore 0 estimatedItemSize viewport overscan).itemOffsets = [] ∧
    (visibleRangeCore 0 estimatedItemSize viewport overscan).endIndex <
      (visibleRangeCore 0 estimatedItemSize viewport overscan).startIndex := by
  have hlt : (visibleRangeCore 0 estimatedItemSize viewport overscan).endIndex <
      (visibleRangeCore 0 estimatedItemSize viewport overscan).startIndex := by
    rw [visibleRangeCore_endIndex, visibleRangeCore_startIndex]
    omega
  refine ⟨List.eq_nil_of_length_eq_zero ?_, hlt⟩
  rw [visibleRangeCore_itemOffsets_length, Int.toNat_eq_zero]
  omega

/-- Claim C1: on every contract-conforming input (`itemCount ≥ 0`,
`estimatedItemSize > 0`, `overscan ≥ 0`, any viewport) the calculator
returns `startIndex = max(0, floor(scrollOffset / estimatedItemSize) - overscan)`,
`endIndex = min(itemCount - 1, startIndex + ceil(containerHeight / estimatedItemSize)
+ 2*overscan)`, and gives each listed item the pixel top
`index * estimatedItemSize`; in particular the configuration of
`VirtualizedList.tsx` (10000 items, size 80, overscan 5, container height
500) yields the range (0, 17) at scroll offset 0 and (95, 112) at scroll
offset 8000. -/
theorem computeVisibleRange_follows_algorithm (itemCount : ℤ) (estimatedItemSize : ℚ)
    (viewport : ViewportState) (overscan : ℤ)
    (hc : 0 ≤ itemCount) (hs : 0 < estimatedItemSize) (ho : 0 ≤ overscan) :
    (∃ r, computeVisibleRange itemCount estimatedItemSize viewport overscan = Except.ok r ∧
      r.startIndex = max 0 (⌊viewport.scrollOffset / estimatedItemSize⌋ - overscan) ∧
      r.endIndex = min (itemCount - 1)
        (r.startIndex + ⌈viewport.containerHeight / estimatedItemSize⌉ + 2 * overscan) ∧
      ∀ o ∈ r.itemOffsets, o.pixelTop = (o.index : ℚ) * estimatedItemSize) ∧
    okRange (computeVisibleRange 10000 80 ⟨0, 500⟩ 5) = some (0, 17) ∧
    okRange (computeVisibleRange 10000 80 ⟨8000, 500⟩ 5) = some (95, 112) := by
  refine ⟨⟨_, computeVisibleRange_eq_ok _ _ _ _ hc hs ho,
      visibleRangeCore_startIndex _ _ _ _, visibleRangeCore_endIndex _ _ _ _,
      visibleRangeCore_pixelTop _ _ _ _⟩, ?_, ?_⟩
  · rw [computeVisibleRange]
    norm_num [okRange, visibleRangeCore, Rat.floor_def', Rat.ceil]
  · rw [computeVisibleRange]
    norm_num [okRange, visibleRangeCore, Rat.floor_def', Rat.ceil]

theorem computeVisibleRange_follows_algorithm_witness :
    (0 : ℤ) ≤ 10000 ∧ (0 : ℚ) < 80 ∧ (0 : ℤ) ≤ 5 ∧
    okRange (computeVisibleRange 10000 80 ⟨0, 500⟩ 5) = some (0, 17) ∧
    okRange (computeVisibleRange 10000 80 ⟨8000, 500⟩ 5) = some (95, 112) :=
  ⟨by decide, by decide, by decide,
    (computeVisibleRange_follows_algorithm 10000 80 ⟨0, 500⟩ 5
      (by decide) (by decide) (by decide)).2.1,
    (computeVisibleRange_follows_algorithm 10000 80 ⟨0, 500⟩ 5
      (by decide) (by decide) (by decide)).2.2⟩

/-- Claim C2: for every `itemCount ≥ 0` and estimated item size, the total
scrollable height reported for the spacer equals exactly
`itemCount * estimatedItemSize`; with the 10000-item list at estimated size
80 the spacer height is exactly 800000 pixels. -/
theorem totalHeight_eq_itemCount_mul_size (itemCount : ℤ) (estimatedItemSize : ℚ)
    (hc : 0 ≤ itemCount) :
    totalHeight itemCount estimatedItemSize = (itemCount : ℚ) * estimatedItemSize ∧
    totalHeight 10000 80 = 800000 := by
  constructor
  · rw [totalHeight, estimatedSizeSum_eq]
    congr 1
    exact_mod_cast congrArg (fun z : ℤ => (z : ℚ)) (Int.toNat_of_nonneg hc)
  · rw [totalHeight, show (10000 : ℤ).toNat = 10000 from rfl, estimatedSizeSum_eq]
    norm_num

theorem totalHeight_eq_itemCount_mul_size_witness :
    (0 : ℤ) ≤ 10000 ∧ totalHeight 10000 80 = ((10000 : ℤ) : ℚ) * 80 ∧
    totalHeight 10000 80 = 800000 :=
  ⟨by decide, (totalHeight_eq_itemCount_mul_size 10000 80 (by decide)).1,
    (totalHeight_eq_itemCount_mul_size 10000 80 (by decide)).2⟩

/-- Claim C4: on every contract-conforming input (`itemCount ≥ 0`,
`estimatedItemSize > 0`, `overscan ≥ 0`, any viewport state), the end index
returned by the calculator is strictly less than the item count. -/
theorem endIndex_lt_itemCount (itemCount : ℤ) (estimatedItemSize : ℚ)
    (viewport : ViewportState) (overscan : ℤ)
    (hc : 0 ≤ itemCount) (hs : 0 < estimatedItemSize) (ho : 0 ≤ overscan) :
    ∃ r, computeVisibleRange itemCount estimatedItemSize viewport overscan = Except.ok r ∧
      r.endIndex < itemCount := by
  refine ⟨_, computeVisibleRange_eq_ok _ _ _ _ hc hs ho, ?_⟩
  rw [visibleRangeCore_endIndex]
  exact lt_of_le_of_lt (min_le_left _ _) (by omega)

theorem endIndex_lt_itemCount_witness :
    (0 : ℤ) ≤ 10000 ∧ (0 : ℚ) < 80 ∧ (0 : ℤ) ≤ 5 ∧
    ∃ r, computeVisibleRange 10000 80 ⟨8000, 500⟩ 5 = Except.ok r ∧ r.endIndex < 10000 :=
  ⟨by decide, by decide, by decide,
    endIndex_lt_itemCount 10000 80 ⟨8000, 500⟩ 5 (by decide) (by decide) (by decide)⟩

/-- Claim C5: invalid inputs — a negative item count or a non-positive
estimated item size — make the calculator signal an error at the boundary
instead of returning a range. -/
theorem invalid_inputs_rejected (itemCount : ℤ) (estimatedItemSize : ℚ)
    (viewport : ViewportState) (overscan : ℤ)
    (h : itemCount < 0 ∨ estimatedItemSize ≤ 0) :
    ∃ msg, computeVisibleRange itemCount estimatedItemSize viewport overscan =
      Except.error msg := by
  rw [computeVisibleRange]
  rcases h with h | h
  · rw [if_pos h]
    exact ⟨_, rfl⟩
  · by_cases hcneg : itemCount < 0
    · rw [if_pos hcneg]
      exact ⟨_, rfl⟩
    · rw [if_neg hcneg, if_pos h]
      exact ⟨_, rfl⟩

theorem invalid_inputs_rejected_witness :
    ((-1 : ℤ) < 0 ∨ (80 : ℚ) ≤ 0) ∧
    ∃ msg, computeVisibleRange (-1) 80 ⟨0, 500⟩ 5 = Except.error msg :=
  ⟨Or.inl (by decide),
    invalid_inputs_rejected (-1) 80 ⟨0, 500⟩ 5 (Or.inl (by decide))⟩

/-- Claim C3 counterexample: at `itemCount = 1`, `estimatedItemSize = 1`,
`scrollOffset = 2`, `containerHeight = 1`, `overscan = 0` — a valid input
whose scroll offset lies beyond the end of the content — the calculator
returns the range (2, 0), so `startIndex ≤ endIndex` fails even though the
item count is not zero. -/
theorem start_le_end_violated_when_overscrolled :
    startLeEnd (computeVisibleRange 1 1 ⟨2, 1⟩ 0) = false ∧
    okRange (computeVisibleRange 1 1 ⟨2, 1⟩ 0) = some (2, 0) := by
  constructor
  · rw [computeVisibleRange]
    norm_num [startLeEnd, visibleRangeCore, Rat.floor_def', Rat.ceil]
  · rw [computeVisibleRange]
    norm_num [okRange, visibleRangeCore, Rat.floor_def', Rat.ceil]

/-- Claim C3 amended: on contract-conforming inputs with a nonnegative
container height, the calculator returns `startIndex ≤ endIndex` whenever
the scroll offset is nonnegative and lies within the content
(`scrollOffset < itemCount * estimatedItemSize`); when `itemCount = 0` the
range is empty (`endIndex < startIndex`, no item offsets).  A scroll offset
at or beyond the end of the content may also yield an empty range. -/
theorem start_le_end_within_content (itemCount : ℤ) (estimatedItemSize : ℚ)
    (viewport : ViewportState) (overscan : ℤ)
    (hc : 0 ≤ itemCount) (hs : 0 < estimatedItemSize) (ho : 0 ≤ overscan)
    (hch : 0 ≤ viewport.containerHeight) :
    (0 ≤ viewport.scrollOffset →
      viewport.scrollOffset < (itemCount : ℚ) * estimatedItemSize →
      ∃ r, computeVisibleRange itemCount estimatedItemSize viewport overscan = Except.ok r ∧
        r.startIndex ≤ r.endIndex) ∧
    (itemCount = 0 →
      ∃ r, computeVisibleRange itemCount estimatedItemSize viewport overscan = Except.ok r ∧
        r.endIndex < r.startIndex ∧ r.itemOffsets = []) := by
  constructor
  · intro hso hlt
    refine ⟨_, computeVisibleRange_eq_ok _ _ _ _ hc hs ho, ?_⟩
    rw [visibleRangeCore_startIndex, visibleRangeCore_endIndex,
      visibleRangeCore_startIndex]
    have hfl : ⌊viewport.scrollOffset / estimatedItemSize⌋ < itemCount :=
      Int.floor_lt.mpr ((div_lt_iff₀ hs).mpr hlt)
    have hfl0 : 0 ≤ ⌊viewport.scrollOffset / estimatedItemSize⌋ :=
      Int.floor_nonneg.mpr (div_nonneg hso hs.le)
    have hce : 0 ≤ ⌈viewport.containerHeight / estimatedItemSize⌉ :=
      Int.ceil_nonneg (div_nonneg hch hs.le)
    omega
  · intro hzero
    subst hzero
    exact ⟨_, computeVisibleRange_eq_ok _ _ _ _ hc hs ho,
      (visibleRangeCore_zero_items _ _ _).2, (visibleRangeCore_zero_items _ _ _).1⟩

theorem start_le_end_within_content_witness :
    (0 : ℤ) ≤ 10000 ∧ (0 : ℚ) < 80 ∧ (0 : ℤ) ≤ 5 ∧
    (0 : ℚ) ≤ (ViewportState.mk 8000 500).containerHeight ∧
    (0 : ℚ) ≤ (ViewportState.mk 8000 500).scrollOffset ∧
    (ViewportState.mk 8000 500).scrollOffset < ((10000 : ℤ) : ℚ) * 80 ∧
    ∃ r, computeVisibleRange 10000 80 ⟨8000, 500⟩ 5 = Except.ok r ∧
      r.startIndex ≤ r.endIndex :=
  ⟨by decide, by decide, by decide, by decide, by decide, by norm_num,
    (start_le_end_within_content 10000 80 ⟨8000, 500⟩ 5
      (by decide) (by decide) (by decide) (by decide)).1 (by decide) (by norm_num)⟩

/-- Claim C6: with zero items the calculator returns an empty range and the
reported total height is zero; with a zero container height the computation
is total — it divides by nothing and returns a range rather than throwing
(for every conforming item count, size, overscan and scroll offset). -/
theorem zero_items_and_zero_height_edge_cases (itemCount : ℤ) (estimatedItemSize : ℚ)
    (viewport : ViewportState) (overscan : ℤ) (scrollOffset : ℚ)
    (hc : 0 ≤ itemCount) (hs : 0 < estimatedItemSize) (ho : 0 ≤ overscan) :
    (∃ r, computeVisibleRange 0 estimatedItemSize viewport overscan = Except.ok r ∧
      r.itemOffsets = [] ∧ r.endIndex < r.startIndex) ∧
    totalHeight 0 estimatedItemSize = 0 ∧
    (∃ r, computeVisibleRange itemCount estimatedItemSize ⟨scrollOffset, 0⟩ overscan =
      Except.ok r) := by
  refine ⟨⟨_, computeVisibleRange_eq_ok _ _ _ _ le_rfl hs ho,
      (visibleRangeCore_zero_items _ _ _).1, (visibleRangeCore_zero_items _ _ _).2⟩,
    rfl, ⟨_, computeVisibleRange_eq_ok _ _ _ _ hc hs ho⟩⟩

theorem zero_items_and_zero_height_edge_cases_witness :
    (0 : ℤ) ≤ 10000 ∧ (0 : ℚ) < 80 ∧ (0 : ℤ) ≤ 5 ∧
    totalHeight 0 80 = 0 ∧
    (∃ r, computeVisibleRange 0 80 ⟨0, 500⟩ 5 = Except.ok r ∧
      r.itemOffsets = [] ∧ r.endIndex < r.startIndex) ∧
    ∃ r, computeVisibleRange 10000 80 ⟨0, 0⟩ 5 = Except.ok r :=
  ⟨by decide, by decide, by decide,
    (zero_items_and_zero_height_edge_cases 10000 80 ⟨0, 500⟩ 5 0
      (by decide) (by decide) (by decide)).2.1,
    (zero_items_and_zero_height_edge_cases 10000 80 ⟨0, 500⟩ 5 0
      (by decide) (by decide) (by decide)).1,
    (zero_items_and_zero_height_edge_cases 10000 80 ⟨0, 500⟩ 5 0
      (by decide) (by decide) (by decide)).2.2⟩

/-- Claim C7: the calculator is a pure, deterministic function of its four
inputs — a call threaded through the surrounding state leaves that state
unchanged, and two calls with identical inputs (from arbitrary surrounding
states) produce identical results. -/
theorem computeVisibleRange_pure_deterministic (w w' : RenderWorld) (itemCount : ℤ)
    (estimatedItemSize : ℚ) (viewport : ViewportState) (overscan : ℤ) :
    (callComputeVisibleRange w itemCount estimatedItemSize viewport overscan).2 = w ∧
    (callComputeVisibleRange w itemCount estimatedItemSize viewport overscan).1 =
      (callComputeVisibleRange w' itemCount estimatedItemSize viewport overscan).1 :=
  ⟨rfl, rfl⟩

theorem runDeferred_cons {T : Type} (s : DeferredPair T) (e : SchedEvent T)
    (evs : List (SchedEvent T)) :
    runDeferred s (e :: evs) = runDeferred (stepDeferred s e) evs := rfl

theorem urgentValues_cons_set {T : Type} (v : T) (evs : List (SchedEvent T)) :
    urgentValues (SchedEvent.setUrgent v :: evs) = v :: urgentValues evs := rfl

theorem urgentValues_cons_flush {T : Type} (evs : List (SchedEvent T)) :
    urgentValues (SchedEvent.flush :: evs) = urgentValues evs := rfl

theorem runDeferred_mem {T : Type} (s : DeferredPair T) (evs : List (SchedEvent T)) :
    (runDeferred s evs).urgent ∈ s.urgent :: urgentValues evs ∧
    (runDeferred s evs).deferred ∈ s.deferred :: s.urgent :: urgentValues evs := by
  induction evs generalizing s with
  | nil =>
    exact ⟨List.mem_cons_self _ _, List.mem_cons_self _ _⟩
  | cons e evs ih =>
    cases e with
    | setUrgent v =>
      rw [runDeferred_cons, urgentValues_cons_set]
      have h := ih (stepDeferred s (SchedEvent.setUrgent v))
      simp only [stepDeferred] at h
      constructor
      · exact List.mem_cons_of_mem _ h.1
      · have h2 := h.2
        simp only [List.mem_cons] at h2 ⊢
        tauto
    | flush =>
      rw [runDeferred_cons, urgentValues_cons_flush]
      have h := ih (stepDeferred s SchedEvent.flush)
      simp only [stepDeferred] at h
      constructor
      · exact h.1
      · have h2 := h.2
        simp only [List.mem_cons] at h2 ⊢
        tauto

/-- Claim C8: starting from the initial pair and running any sequence of
scheduler events, the deferred value always equals the initial value or one
of the values the urgent slot was set to — deferred never takes on a value
that urgent never held. -/
theorem deferred_only_values_urgent_held (T : Type) (v0 : T) (evs : List (SchedEvent T)) :
    (runDeferred (initPair v0) evs).deferred ∈ v0 :: urgentValues evs := by
  have h := (runDeferred_mem (initPair v0) evs).2
  simp only [initPair, List.mem_cons] at h ⊢
  tauto

/-- Claim C9: when the urgent value is set to `v1` and then immediately to
`v2` before any deferred update fires, the deferred value stays at its old
value through the burst, settles directly on `v2` at the coalesced update,
and never transiently equals `v1` (provided `v1` was neither the already
deferred value nor `v2` itself). -/
theorem deferred_coalesces_burst (T : Type) (s0 : DeferredPair T) (v1 v2 : T)
    (h1 : v1 ≠ s0.deferred) (h2 : v1 ≠ v2) :
    (runDeferred s0 [SchedEvent.setUrgent v1]).deferred = s0.deferred ∧
    (runDeferred s0 [SchedEvent.setUrgent v1, SchedEvent.setUrgent v2]).deferred =
      s0.deferred ∧
    (runDeferred s0 [SchedEvent.setUrgent v1, SchedEvent.setUrgent v2,
      SchedEvent.flush]).deferred = v2 ∧
    (runDeferred s0 [SchedEvent.setUrgent v1]).deferred ≠ v1 ∧
    (runDeferred s0 [SchedEvent.setUrgent v1, SchedEvent.setUrgent v2]).deferred ≠ v1 ∧
    (runDeferred s0 [SchedEvent.setUrgent v1, SchedEvent.setUrgent v2,
      SchedEvent.flush]).deferred ≠ v1 :=
  ⟨rfl, rfl, rfl, fun h => h1 h.symm, fun h => h1 h.symm, fun h => h2 h.symm⟩

theorem deferred_coalesces_burst_witness :
    ((1 : ℕ) ≠ (initPair (0 : ℕ)).deferred) ∧ ((1 : ℕ) ≠ 2) ∧
    (runDeferred (initPair (0 : ℕ)) [SchedEvent.setUrgent 1, SchedEvent.setUrgent 2,
      SchedEvent.flush]).deferred = 2 ∧
    (runDeferred (initPair (0 : ℕ)) [SchedEvent.setUrgent 1, SchedEvent.setUrgent 2,
      SchedEvent.flush]).deferred ≠ 1 :=
  ⟨by decide, by decide,
    (deferred_coalesces_burst ℕ (initPair 0) 1 2 (by decide) (by decide)).2.2.1,
    (deferred_coalesces_burst ℕ (initPair 0) 1 2 (by decide) (by decide)).2.2.2.2.2⟩

/-- Claim C10: the render layer checks bounds before dereferencing — a
virtual item whose index has no corresponding entry in the items array
renders nothing, and every in-bounds virtual item renders a row holding
exactly the item at its index, positioned at the virtual item's start with
the virtual item's size. -/
theorem renderRow_bounds_checked (items : List Item) (vi : VirtualItem) :
    (items.length ≤ vi.index → renderRow items vi = none) ∧
    (vi.index < items.length →
      ∃ row, renderRow items vi = some row ∧ items.get? vi.index = some row.item ∧
        row.translateY = vi.start ∧ row.height = vi.size) := by
  constructor
  · intro h
    rw [renderRow, List.get?_eq_none.mpr h]
  · intro h
    have hget : items.get? vi.index = some (items.get ⟨vi.index, h⟩) := List.get?_eq_get h
    rw [renderRow, hget]
    exact ⟨_, rfl, rfl, rfl, rfl⟩

theorem renderRow_bounds_checked_witness :
    ((makeItems 3).length ≤ 5 ∧ renderRow (makeItems 3) ⟨5, 5, 400, 80⟩ = none) ∧
    (1 < (makeItems 3).length ∧
      ∃ row, renderRow (makeItems 3) ⟨1, 1, 80, 80⟩ = some row ∧
        (makeItems 3).get? 1 = some row.item ∧ row.translateY = 80 ∧ row.height = 80) :=
  ⟨⟨by simp [makeItems],
      (renderRow_bounds_checked (makeItems 3) ⟨5, 5, 400, 80⟩).1 (by simp [makeItems])⟩,
    ⟨by simp [makeItems],
      (renderRow_bounds_checked (makeItems 3) ⟨1, 1, 80, 80⟩).2 (by simp [makeItems])⟩⟩
